import Mathlib

set_option maxHeartbeats 1000000

/-!
Verification of the tfwrapper backend-resolution core (src/tfwrapper/main.py).

The Python program is embedded shallowly: every externally visible action
(AWS SSM / STS / S3 calls, terraform invocations, file writes and removals,
prompts, log lines) is recorded as an `Event` in a trace, the local file
system is threaded through explicitly, and `sys.exit` is modelled by an
`Except Nat` error channel.  Results of the external collaborators (the
cloud APIs, the terraform binary, the properties file, the prompt answer)
are supplied as oracle inputs, mirroring the spec's collaborator contracts.
-/

/-- Local file system: maps a path to the file's content when the file exists. -/
def FS : Type := String → Option String

/-- Externally visible action performed by the program. -/
inductive Event where
  | logInfo (msg : String)
  | logError (msg : String)
  | readProps (path : String)
  | stsGetIdentity
  | prompt (msg : String)
  | ssmGet (name : String)
  | ssmPut (name : String) (value : String)
  | ssmDelete (name : String)
  | runCmd (cmd : List String) (cwd : Option String)
  | tfOutput (dir : String)
  | writeFile (path : String) (content : String)
  | removeFile (path : String)
  | removeDir (path : String)
  | s3DeleteObjects (bucket : String) (objects : List (String × String))
  | s3DeleteBucket (bucket : String)
  deriving DecidableEq, Repr

/-- Computation of the wrapper: threads the file system, records a trace of
events, and may terminate the process with an exit code (`Except.error`). -/
def M (α : Type) : Type := FS → FS × List Event × Except Nat α

def pureM (a : α) : M α := fun fs => (fs, [], Except.ok a)

def bindM (m : M α) (f : α → M β) : M β := fun fs =>
  match m fs with
  | (fs1, tr1, Except.error c) => (fs1, tr1, Except.error c)
  | (fs1, tr1, Except.ok a) =>
    match f a fs1 with
    | (fs2, tr2, r) => (fs2, tr1 ++ tr2, r)

instance : Monad M where
  pure := pureM
  bind := bindM

/-- Record one event. -/
def emit (e : Event) : M Unit := fun fs => (fs, [e], Except.ok ())

/-- Model of `sys.exit(c)`. -/
def sysExit (c : Nat) : M α := fun fs => (fs, [], Except.error c)

/-- Read the current file system (models `os.path.isfile` checks). -/
def getFS : M FS := fun fs => (fs, [], Except.ok fs)

/-- Model of writing a file (`open(path, 'w')` followed by `write`). -/
def writeFS (p content : String) : M Unit := fun fs =>
  (fun q => if q = p then some content else fs q, [Event.writeFile p content], Except.ok ())

/-- Model of `os.remove`. -/
def removeFS (p : String) : M Unit := fun fs =>
  (fun q => if q = p then none else fs q, [Event.removeFile p], Except.ok ())

def runM (m : M α) (fs : FS) : FS × List Event × Except Nat α := m fs

def fsOf (o : FS × List Event × Except Nat α) : FS := o.1

def trOf (o : FS × List Event × Except Nat α) : List Event := o.2.1

def resOf (o : FS × List Event × Except Nat α) : Except Nat α := o.2.2

/-- Exit status of the whole process, as produced by `cli_main`: a normal
return from `main` exits 0, `sys.exit(c)` exits with `c`. -/
def exitStatus : Except Nat Unit → Nat
  | Except.ok _ => 0
  | Except.error c => c

/-- Model of `os.path.join` for the relative paths this program joins. -/
def pathJoin (a b : String) : String := a ++ "/" ++ b

/-- Python `' '.join(cmd)`. -/
def joinSpace (cmd : List String) : String := String.intercalate " " cmd

/-- Model of Python `str.lower()` (ASCII case mapping), kept kernel-computable. -/
def pyLower (s : String) : String := String.mk (s.data.map Char.toLower)

/-- Model of Python `str.startswith(pre)`, kept kernel-computable. -/
def pyStartsWith (s pre : String) : Bool := pre.data.isPrefixOf s.data

/-- Mirror of the mutable state of the Python `TfWrapper` object. -/
structure TfWrapper where
  env : String
  region : String
  target_dir : String
  bucket_override : String
  force_copy : Bool
  app_name_override : String
  force_delete : Bool
  app_name : String
  safe_app_name : String
  account_id : String
  ssm_param_name : String
  deriving DecidableEq, Repr

/-- Mirror of `TfWrapper.__init__` (`env or 'dev'`, `target_dir or '.'`). -/
def TfWrapper.make (env region target_dir : String) : TfWrapper :=
  { env := if env = "" then "dev" else env
    region := region
    target_dir := if target_dir = "" then "." else target_dir
    bucket_override := ""
    force_copy := false
    app_name_override := ""
    force_delete := false
    app_name := ""
    safe_app_name := ""
    account_id := ""
    ssm_param_name := "" }

/-- Mirror of `run_and_log`; `ok` is the oracle telling whether the external
process exits zero. -/
def run_and_log (ok : Bool) (cmd : List String) (cwd : Option String) (check : Bool) : M Unit := do
  emit (Event.logInfo ("CMD: " ++ joinSpace cmd))
  emit (Event.runCmd cmd cwd)
  if ok then pure () else do
    emit (Event.logError ("Command failed: " ++ joinSpace cmd))
    if check then sysExit 1 else pure ()

/-- The decision `confirm_prompt` makes from the typed reply (`None` models
`EOFError` from `input`): `resp.lower().startswith('y')`. -/
def confirmAnswer : Option String → Bool
  | none => false
  | some resp => pyStartsWith (pyLower resp) "y"

/-- Mirror of `confirm_prompt` (the global `FORCE_DELETE` is passed in). -/
def confirm_prompt (force_delete : Bool) (resp : Option String) (prompt : String) : M Bool :=
  if force_delete then pureM true
  else do
    emit (Event.prompt (prompt ++ " [y/N]: "))
    pure (confirmAnswer resp)

/-- Outcome of `ssm.get_parameter`: the stored value, `ParameterNotFound`,
or any other `ClientError`. -/
inductive SsmGetResult where
  | found (v : String)
  | notFound
  | otherError (msg : String)
  deriving DecidableEq, Repr

/-- The string value `get_ssm_backend` returns for each outcome. -/
def ssmGetValue : SsmGetResult → String
  | SsmGetResult.found v => v
  | SsmGetResult.notFound => ""
  | SsmGetResult.otherError _ => ""

/-- Mirror of `TfWrapper.synthesize_app_name_and_account`.  `propsAppName` is
the app name the properties file yields (empty when the file is missing,
unreadable, or lacks the field); `stsAccount` is `None` when
`get_caller_identity` raises `ClientError`, otherwise the `Account` field. -/
def synthesize_app_name_and_account (propsAppName : String) (stsAccount : Option String)
    (t : TfWrapper) : M TfWrapper := do
  emit (Event.logInfo "synthesize_app_name_and_account: BEGIN")
  let app_name ←
    if t.app_name_override ≠ "" then pure t.app_name_override
    else do
      emit (Event.readProps ("properties." ++ t.env ++ ".json"))
      pure propsAppName
  if app_name = "" then do
    emit (Event.logError ("Unable to determine app name. Ensure properties." ++ t.env ++
      ".json exists and contains an app_name field, or provide --app-name."))
    sysExit 2
  else do
    let safe_app_name := pyLower (app_name ++ t.env)
    emit Event.stsGetIdentity
    match stsAccount with
    | none => do
      emit (Event.logError "Unable to determine AWS account id. Ensure AWS credentials are configured.")
      sysExit 2
    | some account_id =>
      if account_id = "" then do
        emit (Event.logError "Unable to determine AWS account id. Ensure AWS credentials are configured.")
        sysExit 2
      else
        pure { t with app_name := app_name, safe_app_name := safe_app_name,
                      account_id := account_id,
                      ssm_param_name := "/terraform/backend/" ++ account_id ++ "-" ++ safe_app_name }

/-- Mirror of `TfWrapper.get_ssm_backend`. -/
def get_ssm_backend (r : SsmGetResult) (t : TfWrapper) : M String := do
  emit (Event.ssmGet t.ssm_param_name)
  match r with
  | SsmGetResult.found v => pure v
  | SsmGetResult.notFound => pure ""
  | SsmGetResult.otherError msg => do
    emit (Event.logError ("SSM get_parameter failed: " ++ msg))
    pure ""

/-- Mirror of `TfWrapper.put_ssm_backend`; `ok` tells whether `put_parameter`
succeeded. -/
def put_ssm_backend (ok : Bool) (value : String) (t : TfWrapper) : M Unit := do
  emit (Event.ssmPut t.ssm_param_name value)
  if ok then pure () else do
    emit (Event.logError "Failed to put SSM parameter.")
    sysExit 1

/-- Mirror of `TfWrapper.delete_ssm_backend`. -/
def delete_ssm_backend (ok : Bool) (t : TfWrapper) : M Unit := do
  emit (Event.logInfo "delete_ssm_backend: BEGIN")
  emit (Event.ssmDelete t.ssm_param_name)
  if ok then emit (Event.logInfo ("Deleted SSM parameter " ++ t.ssm_param_name))
  else emit (Event.logInfo ("SSM parameter " ++ t.ssm_param_name ++ " not found or could not be deleted"))

/-- Mirror of `TfWrapper.write_backend_hcl_to_file`. -/
def write_backend_hcl_to_file (content : String) (t : TfWrapper) : M Unit := do
  emit (Event.logInfo "write_backend_hcl_to_file: BEGIN")
  writeFS (pathJoin t.target_dir "backend.tf") content
  emit (Event.logInfo ("Wrote " ++ pathJoin t.target_dir "backend.tf"))

/-- Mirror of `TfWrapper.build_backend_content`. -/
def build_backend_content (bucket region account : String) (t : TfWrapper) : String :=
  "terraform \x7b\n  backend \"s3\" \x7b\n    bucket = \"" ++ bucket ++
  "\"\n    key    = \"terraform." ++ account ++ "-" ++ region ++ "-" ++ t.safe_app_name ++
  ".tfstate\"\n    region = \"" ++ region ++
  "\"\n    encrypt = true\n    use_lockfile = true\n  \x7d\n\x7d\n"

/-- Mirror of `TfWrapper.erase_backend_tf`. -/
def erase_backend_tf (dirpath : String) : M Unit := do
  emit (Event.logInfo "erase_backend_tf: BEGIN")
  let fs ← getFS
  if (fs (pathJoin dirpath "backend.tf")).isSome then removeFS (pathJoin dirpath "backend.tf")
  else pure ()
  emit (Event.logInfo ("Erased backend.tf at " ++ pathJoin dirpath "backend.tf"))

/-- One page yielded by the `list_object_versions` paginator. -/
structure Page where
  versions : List (String × String)
  deleteMarkers : List (String × String)
  deriving DecidableEq, Repr

/-- The `objects` list built from one page: versions then delete markers,
each as a (Key, VersionId) pair. -/
def pageObjects (p : Page) : List (String × String) := p.versions ++ p.deleteMarkers

/-- Sequential loop over a list in `M`. -/
def forEach : List α → (α → M Unit) → M Unit
  | [], _ => pureM ()
  | x :: xs, f => bindM (f x) (fun _ => forEach xs f)

/-- Mirror of the chunked `delete_objects` loop:
`for i in range(0, len(objects), 1000): chunk = objects[i:i+1000]`. -/
def deleteChunks (bucket : String) (objects : List (String × String)) : M Unit :=
  forEach (List.range' 0 ((objects.length + 999) / 1000) 1000)
    (fun i => emit (Event.s3DeleteObjects bucket ((objects.drop i).take 1000)))

/-- Processing of one paginator page inside `empty_s3_bucket`. -/
def processPage (bucket : String) (page : Page) : M Unit :=
  let objects := pageObjects page
  if objects.isEmpty then pureM () else deleteChunks bucket objects

/-- Mirror of `TfWrapper.empty_s3_bucket` (boto3 present).  `pages` are the
pages the paginator yields before either finishing or raising; `listFails`
tells whether the pagination loop ended in a `ClientError`. -/
def empty_s3_bucket (cliOk : Bool) (pages : List Page) (listFails : Bool)
    (bucket region : String) (t : TfWrapper) : M Unit := do
  emit (Event.logInfo "empty_s3_bucket: BEGIN")
  let region := if region = "" then t.region else region
  if bucket = "" then
    emit (Event.logInfo "No bucket name provided; skipping empty_s3_bucket")
  else do
    emit (Event.logInfo ("Emptying S3 bucket " ++ bucket ++ " in region " ++ region))
    run_and_log cliOk ["aws", "s3", "rm", "s3://" ++ bucket, "--recursive", "--region", region] none false
    forEach pages (processPage bucket)
    if listFails then emit (Event.logInfo "list-object-versions failed or no versions; continuing")
    else pure ()
    emit (Event.logInfo ("empty_s3_bucket: DONE for " ++ bucket))

/-- The stub content `ensure_minimal_backend_tf` writes. -/
def minimal_backend_stub : String := "terraform \x7b\n  backend \"s3\" \x7b\x7d\n\x7d\n"

/-- Mirror of `TfWrapper.ensure_minimal_backend_tf`. -/
def ensure_minimal_backend_tf (dirpath : String) : M Unit := do
  emit (Event.logInfo "ensure_minimal_backend_tf: BEGIN")
  let fs ← getFS
  if (fs (pathJoin dirpath "backend.tf")).isSome then
    emit (Event.logInfo ("Found existing backend.tf at " ++ pathJoin dirpath "backend.tf"))
  else do
    writeFS (pathJoin dirpath "backend.tf") minimal_backend_stub
    emit (Event.logInfo ("Created minimal backend.tf at " ++ pathJoin dirpath "backend.tf"))

/-- Mirror of `TfWrapper.run_terraform_init_with_backend_file`. -/
def run_terraform_init_with_backend_file (ok : Bool) (t : TfWrapper) : M Unit := do
  emit (Event.logInfo "run_terraform_init_with_backend_file: BEGIN")
  run_and_log ok (["terraform", "init", "-reconfigure", "-input=false"] ++
    (if t.force_copy then ["-force-copy"] else [])) (some t.target_dir) true

/-- The candidate bootstrap directories, in probe order. -/
def bootstrapCandidates (t : TfWrapper) : List String :=
  [pathJoin t.target_dir "bootstrap", "bootstrap"]

/-- Mirror of `TfWrapper.run_bootstrap_and_create_ssm`.  `isDir` is the
`os.path.isdir` oracle, `outBucket` the parsed `bucket_name` output of
`terraform output -json` (`none` on any failure). -/
def run_bootstrap_and_create_ssm (isDir : String → Bool) (initOk applyOk : Bool)
    (outBucket : Option String) (putOk : Bool) (t : TfWrapper) : M Unit := do
  emit (Event.logInfo "run_bootstrap_and_create_ssm: BEGIN")
  match (bootstrapCandidates t).find? isDir with
  | none => do
    emit (Event.logError ("Bootstrap directory not found in " ++
      joinSpace (bootstrapCandidates t) ++ ". Cannot bootstrap."))
    sysExit 1
  | some found => do
    emit (Event.logInfo ("Found bootstrap directory at " ++ found ++
      ". Running terraform init and apply..."))
    erase_backend_tf found
    run_and_log initOk ["terraform", "init", "-input=false", "-reconfigure"] (some found) true
    run_and_log applyOk ["terraform", "apply", "-auto-approve", "-input=false", "-var",
      "environment=" ++ t.env, "-var", "region=" ++ t.region] (some found) true
    emit (Event.logInfo ("Bootstrap terraform apply completed in " ++ found ++ "."))
    let bucket_name ←
      if t.bucket_override ≠ "" then pure t.bucket_override
      else do
        emit (Event.tfOutput found)
        let fromOut := match outBucket with | some b => b | none => ""
        pure (if fromOut = "" then t.account_id ++ "-" ++ t.safe_app_name ++ "-tfstate" else fromOut)
    let backend_content := build_backend_content bucket_name t.region t.account_id t
    put_ssm_backend putOk backend_content t
    emit (Event.logInfo ("Stored backend configuration into SSM parameter " ++ t.ssm_param_name))
    write_backend_hcl_to_file backend_content t

/-- Mirror of `TfWrapper.ensure_backend_via_ssm_or_bootstrap`. -/
def ensure_backend_via_ssm_or_bootstrap (r : SsmGetResult) (isDir : String → Bool)
    (initOk applyOk : Bool) (outBucket : Option String) (putOk : Bool) (t : TfWrapper) : M Unit := do
  emit (Event.logInfo "ensure_backend_via_ssm_or_bootstrap: BEGIN")
  let ssm_value ← get_ssm_backend r t
  if ssm_value ≠ "" ∧ ssm_value ≠ "None" then do
    emit (Event.logInfo ("Found backend configuration in SSM " ++ t.ssm_param_name))
    write_backend_hcl_to_file ssm_value t
  else do
    emit (Event.logInfo ("Backend SSM parameter " ++ t.ssm_param_name ++
      " not found or empty. Running bootstrap to create backend and SSM entry."))
    run_bootstrap_and_create_ssm isDir initOk applyOk outBucket putOk t

/-- Mirror of `TfWrapper.delete_top_level_stack`. -/
def delete_top_level_stack (r : SsmGetResult) (isDir : String → Bool)
    (bInitOk bApplyOk : Bool) (outBucket : Option String) (putOk : Bool)
    (tInitOk destroyOk : Bool) (t : TfWrapper) : M Unit := do
  emit (Event.logInfo "delete_top_level_stack: BEGIN")
  emit (Event.logInfo ("Destroying top-level stack in " ++ t.target_dir))
  ensure_backend_via_ssm_or_bootstrap r isDir bInitOk bApplyOk outBucket putOk t
  run_terraform_init_with_backend_file tInitOk t
  run_and_log destroyOk ["terraform", "destroy", "-auto-approve", "-var",
    "environment=" ++ t.env, "-var", "region=" ++ t.region] (some t.target_dir) true
  emit (Event.logInfo "Top-level stack destroyed.")

/-- Python character class `\s` over the ASCII range, as used by
`re.search(r'bucket\s*=\s*"([^"]+)"', ...)`. -/
def isWsChar (c : Char) : Bool :=
  c == ' ' || c == '\t' || c == '\n' || c == '\r' || c == '\x0b' || c == '\x0c'

/-- Consume an exact literal prefix, returning the remainder. -/
def dropLit : List Char → List Char → Option (List Char)
  | [], cs => some cs
  | _ :: _, [] => none
  | l :: ls, c :: cs => if c = l then dropLit ls cs else none

/-- Attempt of the regex `bucket\s*=\s*"([^"]+)"` anchored at the head of
`cs`, returning the captured group. -/
def matchBucketAt (cs : List Char) : Option (List Char) :=
  match dropLit ("bucket".data) cs with
  | none => none
  | some rest1 =>
    match rest1.dropWhile isWsChar with
    | [] => none
    | c1 :: rest2 =>
      if c1 = '=' then
        match rest2.dropWhile isWsChar with
        | [] => none
        | c2 :: rest3 =>
          if c2 = '"' then
            let grp := rest3.takeWhile (fun c => c != '"')
            match rest3.dropWhile (fun c => c != '"') with
            | [] => none
            | c3 :: _ => if c3 = '"' then (if grp.isEmpty then none else some grp) else none
          else none
      else none

/-- Leftmost match of the regex over the whole string (`re.search`). -/
def searchBucket : List Char → Option (List Char)
  | [] => none
  | c :: cs =>
    match matchBucketAt (c :: cs) with
    | some grp => some grp
    | none => searchBucket cs

/-- The bucket name `delete_bootstrap_stack` derives from the stored
descriptor: group 1 of the first regex match, else the synthesized default
`f"{self.account_id}-{self.safe_app_name}-tfstate"`. -/
def teardown_bucket_name (ssm_value : String) (t : TfWrapper) : String :=
  match searchBucket ssm_value.data with
  | some grp => String.mk grp
  | none => t.account_id ++ "-" ++ t.safe_app_name ++ "-tfstate"

/-- Mirror of `TfWrapper.delete_bootstrap_stack` (the `try` around
`empty_s3_bucket` is elided since the model of `empty_s3_bucket` never
raises; `deleteBucketOk` tells whether `s3.delete_bucket` succeeded). -/
def delete_bootstrap_stack (isDir : String → Bool) (r : SsmGetResult) (delOk : Bool)
    (cliOk : Bool) (pages : List Page) (listFails : Bool) (deleteBucketOk : Bool)
    (t : TfWrapper) : M Unit := do
  emit (Event.logInfo "delete_bootstrap_stack: BEGIN")
  match (bootstrapCandidates t).find? isDir with
  | none => emit (Event.logInfo "Bootstrap directory not found; skipping bootstrap destroy.")
  | some found => do
    emit (Event.logInfo ("Preparing to destroy bootstrap resources in " ++ found))
    let ssm_value ← get_ssm_backend r t
    let bucket_name := teardown_bucket_name ssm_value t
    delete_ssm_backend delOk t
    erase_backend_tf found
    if bucket_name ≠ "" then do
      emit (Event.logInfo ("Emptying bootstrap S3 bucket " ++ bucket_name ++ " in region " ++ t.region))
      empty_s3_bucket cliOk pages listFails bucket_name t.region t
      emit (Event.logInfo ("Deleting bootstrap S3 bucket " ++ bucket_name))
      emit (Event.s3DeleteBucket bucket_name)
      if deleteBucketOk then emit (Event.logInfo ("Deleted S3 bucket " ++ bucket_name))
      else emit (Event.logError ("Failed to delete S3 bucket " ++ bucket_name ++
        ". Please delete it manually if it still exists."))
    else pure ()
    emit (Event.logInfo "Bootstrap resources destroyed. If bucket deletion failed, empty and delete the S3 bucket manually.")

/-- One `(root, dirs, files)` triple yielded by `os.walk(target_dir, topdown=False)`. -/
structure WalkEntry where
  root : String
  dirs : List String
  files : List String
  deriving Repr

def dirs_to_remove : List String := [".terraform"]

def files_to_remove : List String :=
  [".terraform.lock.hcl", "backend.tf", "terraform.tfstate", "terraform.tfstate.backup"]

/-- The directory-removal loop of `clean_terraform_files` for one walk entry;
`rmFails` is the oracle for removals raising an exception. -/
def removeDirItems (rmFails : String → Bool) (root : String) : List String → Nat → M Nat
  | [], c => pure c
  | d :: rest, c =>
    if d ∈ dirs_to_remove then do
      let p := pathJoin root d
      if rmFails p then do
        emit (Event.logError ("Failed to remove directory " ++ p))
        removeDirItems rmFails root rest c
      else do
        emit (Event.removeDir p)
        emit (Event.logInfo ("Removed directory: " ++ p))
        removeDirItems rmFails root rest (c + 1)
    else removeDirItems rmFails root rest c

/-- The file-removal loop of `clean_terraform_files` for one walk entry. -/
def removeFileItems (rmFails : String → Bool) (root : String) : List String → Nat → M Nat
  | [], c => pure c
  | f :: rest, c =>
    if f ∈ files_to_remove then do
      let p := pathJoin root f
      if rmFails p then do
        emit (Event.logError ("Failed to remove file " ++ p))
        removeFileItems rmFails root rest c
      else do
        removeFS p
        emit (Event.logInfo ("Removed file: " ++ p))
        removeFileItems rmFails root rest (c + 1)
    else removeFileItems rmFails root rest c

/-- The `os.walk` loop of `clean_terraform_files`. -/
def cleanWalk (rmFails : String → Bool) : List WalkEntry → Nat → M Nat
  | [], c => pure c
  | e :: rest, c => do
    let c1 ← removeDirItems rmFails e.root e.dirs c
    let c2 ← removeFileItems rmFails e.root e.files c1
    cleanWalk rmFails rest c2

/-- Mirror of `TfWrapper.clean_terraform_files`. -/
def clean_terraform_files (walk : List WalkEntry) (rmFails : String → Bool)
    (t : TfWrapper) : M Unit := do
  emit (Event.logInfo "clean_terraform_files: BEGIN")
  emit (Event.logInfo ("Cleaning Terraform files and directories from " ++ t.target_dir))
  let c ← cleanWalk rmFails walk 0
  emit (Event.logInfo ("Clean completed. Removed " ++ toString c ++ " items."))

/-- The parsed command-line arguments (`parse_args` itself — thin CLI glue —
is not modelled). -/
structure Args where
  command : String
  env : String
  region : String
  target_dir : String
  force_copy : Bool
  app_name : String
  force : Bool
  deriving DecidableEq, Repr

/-- All collaborator oracles one `main` run consults. -/
structure World where
  propsAppName : String
  stsAccount : Option String
  envBucketOverride : String
  promptResp : Option String
  ssmGet1 : SsmGetResult
  ssmGet2 : SsmGetResult
  isDir : String → Bool
  tfInitBootstrapOk : Bool
  tfApplyBootstrapOk : Bool
  tfOutputBucket : Option String
  ssmPutOk : Bool
  ssmDeleteOk : Bool
  tfInitTargetOk : Bool
  tfPlanOk : Bool
  tfApplyTargetOk : Bool
  tfDestroyOk : Bool
  awsCliOk : Bool
  listPages : List Page
  listFails : Bool
  deleteBucketOk : Bool
  walk : List WalkEntry
  rmFails : String → Bool

/-- The wrapper object as `main` configures it before dispatching. -/
def makeWrapper (a : Args) (w : World) : TfWrapper :=
  let t := TfWrapper.make a.env a.region a.target_dir
  { t with force_copy := a.force_copy, app_name_override := a.app_name,
           force_delete := a.force, bucket_override := w.envBucketOverride }

/-- The command dispatch of `main` (the trailing `log('Done.')` is appended
by `mainRun`). -/
def dispatch (a : Args) (w : World) (t0 : TfWrapper) : M Unit :=
  match a.command with
  | "bootstrap" => do
    let t ← synthesize_app_name_and_account w.propsAppName w.stsAccount t0
    run_bootstrap_and_create_ssm w.isDir w.tfInitBootstrapOk w.tfApplyBootstrapOk
      w.tfOutputBucket w.ssmPutOk t
    emit (Event.logInfo ("Bootstrap completed. You can now run terraform init/plan/apply in " ++
      t.target_dir ++ " using the SSM-provided backend."))
  | "init" => do
    let t ← synthesize_app_name_and_account w.propsAppName w.stsAccount t0
    ensure_backend_via_ssm_or_bootstrap w.ssmGet1 w.isDir w.tfInitBootstrapOk
      w.tfApplyBootstrapOk w.tfOutputBucket w.ssmPutOk t
    run_terraform_init_with_backend_file w.tfInitTargetOk t
  | "plan" => do
    let t ← synthesize_app_name_and_account w.propsAppName w.stsAccount t0
    ensure_backend_via_ssm_or_bootstrap w.ssmGet1 w.isDir w.tfInitBootstrapOk
      w.tfApplyBootstrapOk w.tfOutputBucket w.ssmPutOk t
    run_terraform_init_with_backend_file w.tfInitTargetOk t
    run_and_log w.tfPlanOk ["terraform", "plan", "-input=false", "-var",
      "environment=" ++ t.env, "-var", "region=" ++ t.region] (some t.target_dir) true
  | "apply" => do
    let t ← synthesize_app_name_and_account w.propsAppName w.stsAccount t0
    ensure_backend_via_ssm_or_bootstrap w.ssmGet1 w.isDir w.tfInitBootstrapOk
      w.tfApplyBootstrapOk w.tfOutputBucket w.ssmPutOk t
    run_terraform_init_with_backend_file w.tfInitTargetOk t
    run_and_log w.tfApplyTargetOk ["terraform", "apply", "-auto-approve", "-input=false", "-var",
      "environment=" ++ t.env, "-var", "region=" ++ t.region] (some t.target_dir) true
  | "destroy" => do
    let t ← synthesize_app_name_and_account w.propsAppName w.stsAccount t0
    let ok ← confirm_prompt a.force w.promptResp ("Destroy the top-level stack in " ++
      t.target_dir ++ "? This will permanently delete resources.")
    if ok then
      delete_top_level_stack w.ssmGet1 w.isDir w.tfInitBootstrapOk w.tfApplyBootstrapOk
        w.tfOutputBucket w.ssmPutOk w.tfInitTargetOk w.tfDestroyOk t
    else emit (Event.logInfo "Aborted top-level destroy.")
  | "destroy-all" => do
    let t ← synthesize_app_name_and_account w.propsAppName w.stsAccount t0
    let ok ← confirm_prompt a.force w.promptResp
      "Destroy the top-level stack and bootstrap S3 bucket? This will permanently delete resources and remove the backend SSM entry."
    if ok then do
      delete_top_level_stack w.ssmGet1 w.isDir w.tfInitBootstrapOk w.tfApplyBootstrapOk
        w.tfOutputBucket w.ssmPutOk w.tfInitTargetOk w.tfDestroyOk t
      delete_bootstrap_stack w.isDir w.ssmGet2 w.ssmDeleteOk w.awsCliOk w.listPages
        w.listFails w.deleteBucketOk t
    else emit (Event.logInfo "Aborted destroy-all.")
  | "clean" => do
    let ok ← confirm_prompt a.force w.promptResp ("Clean Terraform files and directories from " ++
      t0.target_dir ++ "? This will remove .terraform folders, .terraform.lock.hcl, backend.tf, and terraform.state files.")
    if ok then clean_terraform_files w.walk w.rmFails t0
    else emit (Event.logInfo "Aborted clean.")
  | _ => do
    emit (Event.logInfo "Unknown command")
    sysExit 1

/-- Mirror of `main` after argument parsing. -/
def mainRun (a : Args) (w : World) : M Unit := do
  dispatch a w (makeWrapper a w)
  emit (Event.logInfo "Done.")

/-- The empty file system. -/
def emptyFS : FS := fun _ => none

/-- Recognizer for SSM `put_parameter` events. -/
def isSsmPut : Event → Bool
  | Event.ssmPut _ _ => true
  | _ => false

/-- Recognizer for a terraform initialize invocation run in directory `d`. -/
def isTfInitIn (d : String) : Event → Bool
  | Event.runCmd cmd cwd => cwd == some d && cmd.take 2 == ["terraform", "init"]
  | _ => false

/-- Recognizer for a terraform apply invocation run in directory `d`. -/
def isTfApplyIn (d : String) : Event → Bool
  | Event.runCmd cmd cwd => cwd == some d && cmd.take 2 == ["terraform", "apply"]
  | _ => false

/-- Events that constitute a side effect in the sense of the spec's
"declining aborts with no side effects": file writes or removals,
parameter-store or bucket mutations, and provisioning-tool / external
process invocations. -/
def isMutating : Event → Bool
  | Event.ssmPut _ _ => true
  | Event.ssmDelete _ => true
  | Event.runCmd _ _ => true
  | Event.tfOutput _ => true
  | Event.writeFile _ _ => true
  | Event.removeFile _ => true
  | Event.removeDir _ => true
  | Event.s3DeleteObjects _ _ => true
  | Event.s3DeleteBucket _ => true
  | _ => false

/-- Declarative reading of the spec's pattern: `cs` starts with the literal
`bucket`, optional whitespace, `=`, optional whitespace, then `"X"` with `X`
nonempty and quote-free.  (Stated from the spec sentence, independently of
the executable matcher.) -/
def SpecMatchAt (cs X : List Char) : Prop :=
  ∃ ws1 ws2 suf,
    cs = ("bucket".data) ++ ws1 ++ '=' :: (ws2 ++ '"' :: (X ++ '"' :: suf)) ∧
    (∀ c ∈ ws1, isWsChar c = true) ∧ (∀ c ∈ ws2, isWsChar c = true) ∧
    X ≠ [] ∧ (∀ c ∈ X, c ≠ '"')

/-- Declarative "first quoted match": the pattern matches with group `X` at
some position before which no position matches at all. -/
def SpecFirstMatch (cs X : List Char) : Prop :=
  ∃ n, SpecMatchAt (cs.drop n) X ∧ ∀ m, m < n → ∀ Y, ¬ SpecMatchAt (cs.drop m) Y

/-- The identity-resolution oracles let `synthesize_app_name_and_account`
succeed: an app name is determinable and STS yields a nonempty account id
(this is what it means for a run to get past identity resolution and reach
the confirmation prompt). -/
def SynthOk (a : Args) (w : World) : Prop :=
  (if a.app_name ≠ "" then a.app_name else w.propsAppName) ≠ "" ∧
  ∃ acct, w.stsAccount = some acct ∧ acct ≠ ""

/-- Temporal ordering property: at every point of the trace, if a parameter
Put has already been issued, then a terraform initialize and a terraform
apply in directory `d` have already been issued. -/
def InitApplyBeforePut (d : String) (tr : List Event) : Prop :=
  ∀ n, (∃ e ∈ tr.take n, isSsmPut e = true) →
    (∃ e ∈ tr.take n, isTfInitIn d e = true) ∧ (∃ e ∈ tr.take n, isTfApplyIn d e = true)

/-- The wrapper state produced by identity resolution in the concrete
scenario env=dev, app=acme, account=123456789012. -/
def scenario_wrapper : TfWrapper :=
  { TfWrapper.make "dev" "us-east-1" "." with
    app_name := "acme", safe_app_name := "acmedev", account_id := "123456789012",
    ssm_param_name := "/terraform/backend/123456789012-acmedev" }

def c8fs : FS := fun p => if p = "a/backend.tf" then some "x" else none

/-- Every batch-delete event carries at most 1000 keys. -/
def ChunkSafe (e : Event) : Prop :=
  ∀ b objs, e = Event.s3DeleteObjects b objs → objs.length ≤ 1000

def c7page : Page := { versions := [("k", "v1"), ("k", "v2")], deleteMarkers := [("m", "d1")] }

def c2wrapper : TfWrapper :=
  { TfWrapper.make "dev" "r" "." with account_id := "111", safe_app_name := "appdev" }

/-- The only file contents the bootstrap sub-flow ever writes are backend
blocks produced by `build_backend_content`. -/
def WriteIsBackend (t : TfWrapper) (e : Event) : Prop :=
  ∀ p c, e = Event.writeFile p c → ∃ bn, c = build_backend_content bn t.region t.account_id t

def c4args : Args :=
  { command := "clean", env := "dev", region := "us-east-1", target_dir := ".",
    force_copy := false, app_name := "", force := false }

def c4world : World :=
  { propsAppName := "", stsAccount := none, envBucketOverride := "", promptResp := some "n",
    ssmGet1 := SsmGetResult.notFound, ssmGet2 := SsmGetResult.notFound, isDir := fun _ => false,
    tfInitBootstrapOk := true, tfApplyBootstrapOk := true, tfOutputBucket := none,
    ssmPutOk := true, ssmDeleteOk := true, tfInitTargetOk := true, tfPlanOk := true,
    tfApplyTargetOk := true, tfDestroyOk := true, awsCliOk := true, listPages := [],
    listFails := false, deleteBucketOk := true, walk := [], rmFails := fun _ => false }

theorem M.bind_def (m : M α) (f : α → M β) : m >>= f = bindM m f := rfl

theorem M.pure_def (a : α) : (pure a : M α) = pureM a := rfl

theorem synth_ok_fields (props : String) (sts : Option String) (t : TfWrapper) (fs : FS)
    (t' : TfWrapper)
    (h : resOf (runM (synthesize_app_name_and_account props sts t) fs) = Except.ok t') :
    t'.app_name = (if t.app_name_override ≠ "" then t.app_name_override else props) ∧
    t'.safe_app_name = pyLower (t'.app_name ++ t.env) ∧
    (∃ acct, sts = some acct ∧ t'.account_id = acct) ∧
    t'.ssm_param_name = "/terraform/backend/" ++ t'.account_id ++ "-" ++ t'.safe_app_name := by
  cases sts with
  | none =>
    by_cases hov : t.app_name_override = "" <;>
      by_cases happ : props = "" <;>
        simp [synthesize_app_name_and_account, runM, resOf, M.bind_def, M.pure_def, bindM, pureM,
          emit, sysExit, hov, happ] at h
  | some acct =>
    by_cases hov : t.app_name_override = ""
    · by_cases happ : props = ""
      · simp [synthesize_app_name_and_account, runM, resOf, M.bind_def, M.pure_def, bindM, pureM,
          emit, sysExit, hov, happ] at h
      · by_cases hacct : acct = ""
        · simp [synthesize_app_name_and_account, runM, resOf, M.bind_def, M.pure_def, bindM, pureM,
            emit, sysExit, hov, happ, hacct] at h
        · simp [synthesize_app_name_and_account, runM, resOf, M.bind_def, M.pure_def, bindM, pureM,
            emit, sysExit, hov, happ, hacct] at h
          subst h
          exact ⟨by simp [hov], rfl, ⟨acct, rfl, rfl⟩, rfl⟩
    · by_cases hacct : acct = ""
      · simp [synthesize_app_name_and_account, runM, resOf, M.bind_def, M.pure_def, bindM, pureM,
          emit, sysExit, hov, hacct] at h
      · simp [synthesize_app_name_and_account, runM, resOf, M.bind_def, M.pure_def, bindM, pureM,
          emit, sysExit, hov, hacct] at h
        subst h
        exact ⟨by simp [hov], rfl, ⟨acct, rfl, rfl⟩, rfl⟩

/-- C5 -/
theorem claim_C5 (props : String) (sts : Option String) (t : TfWrapper) (fs : FS) (t' : TfWrapper)
    (h : resOf (runM (synthesize_app_name_and_account props sts t) fs) = Except.ok t') :
    t'.safe_app_name = pyLower (t'.app_name ++ t.env) ∧
    ∀ fs2 t'', resOf (runM (synthesize_app_name_and_account props sts t) fs2) = Except.ok t'' →
      t''.safe_app_name = t'.safe_app_name := by
  obtain ⟨ha, hs, _, _⟩ := synth_ok_fields props sts t fs t' h
  refine ⟨hs, fun fs2 t'' h2 => ?_⟩
  obtain ⟨ha2, hs2, _, _⟩ := synth_ok_fields props sts t fs2 t'' h2
  rw [hs2, hs, ha, ha2]

theorem claim_C5_witness :
    resOf (runM (synthesize_app_name_and_account "acme" (some "123456789012")
        (TfWrapper.make "dev" "us-east-1" ".")) emptyFS) = Except.ok scenario_wrapper ∧
    scenario_wrapper.safe_app_name =
      pyLower (scenario_wrapper.app_name ++ (TfWrapper.make "dev" "us-east-1" ".").env) :=
  ⟨by rfl,
   (claim_C5 "acme" (some "123456789012") (TfWrapper.make "dev" "us-east-1" ".") emptyFS
      scenario_wrapper (by rfl)).1⟩

/-- C6 -/
theorem claim_C6 (props : String) (sts : Option String) (t : TfWrapper) (fs : FS) (t' : TfWrapper)
    (h : resOf (runM (synthesize_app_name_and_account props sts t) fs) = Except.ok t') :
    t'.ssm_param_name = "/terraform/backend/" ++ t'.account_id ++ "-" ++ t'.safe_app_name :=
  (synth_ok_fields props sts t fs t' h).2.2.2

theorem claim_C6_witness :
    resOf (runM (synthesize_app_name_and_account "acme" (some "123456789012")
        (TfWrapper.make "dev" "us-east-1" ".")) emptyFS) = Except.ok scenario_wrapper ∧
    scenario_wrapper.ssm_param_name =
      "/terraform/backend/" ++ scenario_wrapper.account_id ++ "-" ++ scenario_wrapper.safe_app_name ∧
    scenario_wrapper.ssm_param_name = "/terraform/backend/123456789012-acmedev" :=
  ⟨by rfl,
   claim_C6 "acme" (some "123456789012") (TfWrapper.make "dev" "us-east-1" ".") emptyFS
     scenario_wrapper (by rfl),
   by rfl⟩

/-- C3 -/
theorem claim_C3 (t : TfWrapper) (fs : FS) :
    (∀ v, resOf (runM (get_ssm_backend (SsmGetResult.found v) t) fs) = Except.ok v) ∧
    (resOf (runM (get_ssm_backend SsmGetResult.notFound t) fs) = Except.ok "") ∧
    (∀ msg, resOf (runM (get_ssm_backend (SsmGetResult.otherError msg) t) fs) = Except.ok "" ∧
      Event.logError ("SSM get_parameter failed: " ++ msg) ∈
        trOf (runM (get_ssm_backend (SsmGetResult.otherError msg) t) fs)) ∧
    (∀ r, resOf (runM (get_ssm_backend r t) fs) = Except.ok (ssmGetValue r) ∧
      fsOf (runM (get_ssm_backend r t) fs) = fs) := by
  refine ⟨fun v => ?_, ?_, fun msg => ⟨?_, ?_⟩, fun r => ?_⟩ <;>
    first
    | (cases r <;>
        simp [get_ssm_backend, runM, resOf, fsOf, trOf, M.bind_def, M.pure_def, bindM, pureM,
          emit, ssmGetValue])
    | simp [get_ssm_backend, runM, resOf, fsOf, trOf, M.bind_def, M.pure_def, bindM, pureM,
        emit, ssmGetValue]

/-- C8 -/
theorem claim_C8 (dirpath : String) (fs : FS) :
    ((fs (pathJoin dirpath "backend.tf")).isSome →
      ∀ p, fsOf (runM (ensure_minimal_backend_tf dirpath) fs) p = fs p) ∧
    (fs (pathJoin dirpath "backend.tf") = none →
      fsOf (runM (ensure_minimal_backend_tf dirpath) fs) (pathJoin dirpath "backend.tf") =
        some minimal_backend_stub ∧
      ∀ p, p ≠ pathJoin dirpath "backend.tf" →
        fsOf (runM (ensure_minimal_backend_tf dirpath) fs) p = fs p) := by
  constructor
  · intro hex p
    simp [ensure_minimal_backend_tf, runM, fsOf, M.bind_def, M.pure_def, bindM, pureM, emit,
      getFS, writeFS, hex]
  · intro hnone
    refine ⟨?_, fun p hp => ?_⟩
    · simp [ensure_minimal_backend_tf, runM, fsOf, M.bind_def, M.pure_def, bindM, pureM, emit,
        getFS, writeFS, hnone]
    · simp [ensure_minimal_backend_tf, runM, fsOf, M.bind_def, M.pure_def, bindM, pureM, emit,
        getFS, writeFS, hnone, hp]

theorem claim_C8_witness :
    (c8fs (pathJoin "a" "backend.tf")).isSome = true ∧
    fsOf (runM (ensure_minimal_backend_tf "a") c8fs) (pathJoin "a" "backend.tf") =
      c8fs (pathJoin "a" "backend.tf") :=
  ⟨by decide, (claim_C8 "a" c8fs).1 (by decide) (pathJoin "a" "backend.tf")⟩

theorem chunkSafe_not_delete (e : Event) (h : ∀ b objs, e ≠ Event.s3DeleteObjects b objs) :
    ChunkSafe e := fun b objs heq => absurd heq (h b objs)

theorem forEach_emit (l : List α) (g : α → Event) (fs : FS) :
    forEach l (fun x => emit (g x)) fs = (fs, l.map g, Except.ok ()) := by
  induction l with
  | nil => rfl
  | cons x xs ih => simp [forEach, bindM, emit, ih]

theorem deleteChunks_run (bucket : String) (objs : List (String × String)) (fs : FS) :
    deleteChunks bucket objs fs =
      (fs, (List.range' 0 ((objs.length + 999) / 1000) 1000).map
        (fun i => Event.s3DeleteObjects bucket ((objs.drop i).take 1000)), Except.ok ()) := by
  simp [deleteChunks, forEach_emit]

theorem processPage_run (bucket : String) (p : Page) (fs : FS) :
    ∃ tr, processPage bucket p fs = (fs, tr, Except.ok ()) ∧ ∀ e ∈ tr, ChunkSafe e := by
  by_cases hobj : (pageObjects p).isEmpty
  · exact ⟨[], by simp [processPage, hobj, pureM], by simp⟩
  · refine ⟨(List.range' 0 (((pageObjects p).length + 999) / 1000) 1000).map
        (fun i => Event.s3DeleteObjects bucket (((pageObjects p).drop i).take 1000)), ?_, ?_⟩
    · simp [processPage, hobj, deleteChunks_run]
    · intro e he
      simp only [List.mem_map] at he
      obtain ⟨i, _, rfl⟩ := he
      intro b objs heq
      cases heq
      simp only [List.length_take]
      omega

theorem forEach_pages (bucket : String) (pages : List Page) (fs : FS) :
    ∃ tr, forEach pages (processPage bucket) fs = (fs, tr, Except.ok ()) ∧ ∀ e ∈ tr, ChunkSafe e := by
  induction pages with
  | nil => exact ⟨[], rfl, by simp⟩
  | cons p rest ih =>
    obtain ⟨tr1, heq1, hsafe1⟩ := processPage_run bucket p fs
    obtain ⟨tr2, heq2, hsafe2⟩ := ih
    refine ⟨tr1 ++ tr2, ?_, ?_⟩
    · simp [forEach, bindM, heq1, heq2]
    · intro e he
      rcases List.mem_append.mp he with h | h
      · exact hsafe1 e h
      · exact hsafe2 e h

theorem run_and_log_nofail (ok : Bool) (cmd : List String) (cwd : Option String) (fs : FS) :
    ∃ tr, run_and_log ok cmd cwd false fs = (fs, tr, Except.ok ()) ∧ ∀ e ∈ tr, ChunkSafe e := by
  cases ok
  · refine ⟨[Event.logInfo ("CMD: " ++ joinSpace cmd), Event.runCmd cmd cwd,
      Event.logError ("Command failed: " ++ joinSpace cmd)],
      by simp [run_and_log, M.bind_def, M.pure_def, bindM, pureM, emit], ?_⟩
    intro e he
    simp only [List.mem_cons, List.not_mem_nil, or_false] at he
    rcases he with rfl | rfl | rfl <;> rintro b objs ⟨⟩
  · refine ⟨[Event.logInfo ("CMD: " ++ joinSpace cmd), Event.runCmd cmd cwd],
      by simp [run_and_log, M.bind_def, M.pure_def, bindM, pureM, emit], ?_⟩
    intro e he
    simp only [List.mem_cons, List.not_mem_nil, or_false] at he
    rcases he with rfl | rfl <;> rintro b objs ⟨⟩

/-- C7 -/
theorem claim_C7 (cliOk : Bool) (pages : List Page) (listFails : Bool) (bucket region : String)
    (t : TfWrapper) (fs : FS) :
    (∀ e ∈ trOf (runM (empty_s3_bucket cliOk pages listFails bucket region t) fs), ChunkSafe e) ∧
    resOf (runM (empty_s3_bucket cliOk pages listFails bucket region t) fs) = Except.ok () ∧
    (bucket ≠ "" → listFails = true →
      Event.logInfo "list-object-versions failed or no versions; continuing" ∈
        trOf (runM (empty_s3_bucket cliOk pages listFails bucket region t) fs)) := by
  by_cases hb : bucket = ""
  · subst hb
    refine ⟨?_, ?_, fun hcon _ => absurd rfl hcon⟩
    · intro e he
      simp [empty_s3_bucket, runM, trOf, M.bind_def, M.pure_def, bindM, pureM, emit] at he
      rcases he with rfl | rfl <;> rintro b objs ⟨⟩
    · simp [empty_s3_bucket, runM, resOf, M.bind_def, M.pure_def, bindM, pureM, emit]
  · obtain ⟨trR, heqR, hsafeR⟩ := run_and_log_nofail cliOk
      ["aws", "s3", "rm", "s3://" ++ bucket, "--recursive", "--region",
        if region = "" then t.region else region] none fs
    obtain ⟨trF, heqF, hsafeF⟩ := forEach_pages bucket pages fs
    have hshape : runM (empty_s3_bucket cliOk pages listFails bucket region t) fs =
        (fs, Event.logInfo "empty_s3_bucket: BEGIN" ::
          Event.logInfo ("Emptying S3 bucket " ++ bucket ++ " in region " ++
            (if region = "" then t.region else region)) ::
          (trR ++ (trF ++ ((if listFails then
            [Event.logInfo "list-object-versions failed or no versions; continuing"] else []) ++
            [Event.logInfo ("empty_s3_bucket: DONE for " ++ bucket)]))), Except.ok ()) := by
      cases listFails <;>
        simp [empty_s3_bucket, runM, M.bind_def, M.pure_def, bindM, pureM, emit, hb, heqR, heqF]
    refine ⟨?_, by simp [hshape, resOf], fun _ hlf => ?_⟩
    · intro e he
      simp only [hshape, trOf, List.mem_cons, List.mem_append] at he
      rcases he with rfl | rfl | h | h | h
      · rintro b objs ⟨⟩
      · rintro b objs ⟨⟩
      · exact hsafeR e h
      · exact hsafeF e h
      · rcases h with h | h
        · cases listFails <;> simp at h
          · rcases h with rfl; rintro b objs ⟨⟩
        · simp at h; rcases h with rfl; rintro b objs ⟨⟩
    · subst hlf
      simp [hshape, trOf]

theorem claim_C7_witness :
    ("b" : String) ≠ "" ∧
    Event.s3DeleteObjects "b" [("k", "v1"), ("k", "v2"), ("m", "d1")] ∈
      trOf (runM (empty_s3_bucket true [c7page] true "b" "r" (TfWrapper.make "dev" "r" ".")) emptyFS) ∧
    ([("k", "v1"), ("k", "v2"), ("m", "d1")] : List (String × String)).length ≤ 1000 ∧
    Event.logInfo "list-object-versions failed or no versions; continuing" ∈
      trOf (runM (empty_s3_bucket true [c7page] true "b" "r" (TfWrapper.make "dev" "r" ".")) emptyFS) :=
  ⟨by decide, by decide,
   ((claim_C7 true [c7page] true "b" "r" (TfWrapper.make "dev" "r" ".") emptyFS).1 _ (by decide))
     "b" _ rfl,
   (claim_C7 true [c7page] true "b" "r" (TfWrapper.make "dev" "r" ".") emptyFS).2.2 (by decide) rfl⟩

theorem dropLit_append (l cs : List Char) : dropLit l (l ++ cs) = some cs := by
  induction l with
  | nil => rfl
  | cons x xs ih => simp [dropLit, ih]

theorem dropLit_eq_some (l : List Char) : ∀ cs rest : List Char,
    dropLit l cs = some rest → cs = l ++ rest := by
  induction l with
  | nil =>
    intro cs rest h
    simp only [dropLit, Option.some.injEq] at h
    simp [h]
  | cons x xs ih =>
    intro cs rest h
    cases cs with
    | nil => simp [dropLit] at h
    | cons c cs2 =>
      simp only [dropLit] at h
      by_cases hc : c = x
      · subst hc
        simp only [if_pos rfl] at h
        simpa using ih cs2 rest h
      · simp [hc] at h

theorem dropWhile_all_append (p : Char → Bool) (l rest : List Char)
    (hl : ∀ c ∈ l, p c = true) (hr : ∀ c, rest.head? = some c → p c = false) :
    (l ++ rest).dropWhile p = rest := by
  induction l with
  | nil =>
    cases rest with
    | nil => rfl
    | cons c t => simp [List.dropWhile, hr c rfl]
  | cons x xs ih =>
    simp only [List.cons_append, List.dropWhile]
    rw [hl x (by simp)]
    exact ih (fun c hc => hl c (by simp [hc]))

theorem takeWhile_all_append (p : Char → Bool) (l rest : List Char)
    (hl : ∀ c ∈ l, p c = true) (hr : ∀ c, rest.head? = some c → p c = false) :
    (l ++ rest).takeWhile p = l := by
  induction l with
  | nil =>
    cases rest with
    | nil => rfl
    | cons c t => simp [List.takeWhile, hr c rfl]
  | cons x xs ih =>
    simp only [List.cons_append, List.takeWhile]
    rw [hl x (by simp)]
    simp [ih (fun c hc => hl c (by simp [hc]))]

theorem spec_of_matchBucketAt_some (cs X : List Char) (h : matchBucketAt cs = some X) :
    SpecMatchAt cs X := by
  unfold matchBucketAt at h
  cases hd : dropLit ("bucket".data) cs with
  | none => rw [hd] at h; simp at h
  | some rest1 =>
    rw [hd] at h
    dsimp only at h
    cases h1 : rest1.dropWhile isWsChar with
    | nil => rw [h1] at h; simp at h
    | cons c1 rest2 =>
      rw [h1] at h
      dsimp only at h
      by_cases hc1 : c1 = '='
      · rw [if_pos hc1] at h
        subst hc1
        cases h2 : rest2.dropWhile isWsChar with
        | nil => rw [h2] at h; simp at h
        | cons c2 rest3 =>
          rw [h2] at h
          dsimp only at h
          by_cases hc2 : c2 = '"'
          · rw [if_pos hc2] at h
            subst hc2
            cases h3 : rest3.dropWhile (fun c => c != '"') with
            | nil => rw [h3] at h; simp at h
            | cons c3 tail =>
              rw [h3] at h
              dsimp only at h
              by_cases hc3 : c3 = '"'
              · rw [if_pos hc3] at h
                subst hc3
                by_cases hg : (rest3.takeWhile (fun c => c != '"')).isEmpty = true
                · rw [if_pos hg] at h; simp at h
                · rw [if_neg hg] at h
                  simp only [Option.some.injEq] at h
                  subst h
                  have e1 := dropLit_eq_some ("bucket".data) cs rest1 hd
                  have e2 := List.takeWhile_append_dropWhile isWsChar rest1
                  rw [h1] at e2
                  have e3 := List.takeWhile_append_dropWhile isWsChar rest2
                  rw [h2] at e3
                  have e4 := List.takeWhile_append_dropWhile (fun c => c != '"') rest3
                  rw [h3] at e4
                  refine ⟨rest1.takeWhile isWsChar, rest2.takeWhile isWsChar, tail, ?_, ?_, ?_, ?_, ?_⟩
                  · rw [e4, e3, List.append_assoc, e2]
                    exact e1
                  · exact fun c hc => List.mem_takeWhile_imp hc
                  · exact fun c hc => List.mem_takeWhile_imp hc
                  · simpa using hg
                  · intro c hc
                    have := List.mem_takeWhile_imp hc
                    simpa using this
              · rw [if_neg hc3] at h; simp at h
          · rw [if_neg hc2] at h; simp at h
      · rw [if_neg hc1] at h; simp at h

theorem matchBucketAt_some_of_spec (cs X : List Char) (h : SpecMatchAt cs X) :
    matchBucketAt cs = some X := by
  obtain ⟨ws1, ws2, suf, heq, hws1, hws2, hX, hXq⟩ := h
  have hX2 : ∀ c ∈ X, (c != '"') = true := fun c hc => by simpa using hXq c hc
  subst heq
  unfold matchBucketAt
  rw [List.append_assoc, dropLit_append]
  dsimp only
  rw [dropWhile_all_append isWsChar ws1 ('=' :: (ws2 ++ '"' :: (X ++ '"' :: suf))) hws1
    (by intro c hc; simp only [List.head?_cons, Option.some.injEq] at hc; subst hc; rfl)]
  dsimp only
  rw [if_pos rfl]
  rw [dropWhile_all_append isWsChar ws2 ('"' :: (X ++ '"' :: suf)) hws2
    (by intro c hc; simp only [List.head?_cons, Option.some.injEq] at hc; subst hc; rfl)]
  dsimp only
  rw [if_pos rfl]
  rw [takeWhile_all_append (fun c => c != '"') X ('"' :: suf) hX2
    (by intro c hc; simp only [List.head?_cons, Option.some.injEq] at hc; subst hc; rfl),
    dropWhile_all_append (fun c => c != '"') X ('"' :: suf) hX2
    (by intro c hc; simp only [List.head?_cons, Option.some.injEq] at hc; subst hc; rfl)]
  dsimp only
  rw [if_pos rfl]
  have hne : X.isEmpty = false := by
    cases X with
    | nil => exact absurd rfl hX
    | cons a l => rfl
  rw [hne]
  rfl

theorem matchBucketAt_iff (cs X : List Char) : matchBucketAt cs = some X ↔ SpecMatchAt cs X :=
  ⟨spec_of_matchBucketAt_some cs X, matchBucketAt_some_of_spec cs X⟩

theorem searchBucket_some_iff (cs X : List Char) :
    searchBucket cs = some X ↔
      ∃ n, matchBucketAt (cs.drop n) = some X ∧ ∀ m, m < n → matchBucketAt (cs.drop m) = none := by
  induction cs with
  | nil =>
    constructor
    · intro h; simp [searchBucket] at h
    · rintro ⟨n, hn, -⟩
      rw [List.drop_nil] at hn
      exact absurd hn (by simp [matchBucketAt, dropLit])
  | cons c cs ih =>
    cases hm : matchBucketAt (c :: cs) with
    | some g =>
      constructor
      · intro h
        simp only [searchBucket, hm] at h
        exact ⟨0, by simpa [hm] using h, by omega⟩
      · rintro ⟨n, hn, hmin⟩
        cases n with
        | zero =>
          simp only [searchBucket, hm]
          simpa [hm] using hn
        | succ k =>
          have h0 := hmin 0 (by omega)
          rw [List.drop_zero, hm] at h0
          exact Option.noConfusion h0
    | none =>
      constructor
      · intro h
        simp only [searchBucket, hm] at h
        obtain ⟨n, hn, hmin⟩ := ih.mp h
        refine ⟨n + 1, by simpa using hn, ?_⟩
        intro m hmlt
        cases m with
        | zero => simpa using hm
        | succ k => simpa using hmin k (by omega)
      · rintro ⟨n, hn, hmin⟩
        cases n with
        | zero =>
          rw [List.drop_zero, hm] at hn
          exact Option.noConfusion hn
        | succ k =>
          simp only [searchBucket, hm]
          exact ih.mpr ⟨k, by simpa using hn, fun m hm2 => by simpa using hmin (m + 1) (by omega)⟩

theorem searchBucket_none_iff (cs : List Char) :
    searchBucket cs = none ↔ ∀ n, matchBucketAt (cs.drop n) = none := by
  induction cs with
  | nil =>
    constructor
    · intro _ n
      rw [List.drop_nil]
      simp [matchBucketAt, dropLit]
    · intro _; rfl
  | cons c cs ih =>
    cases hm : matchBucketAt (c :: cs) with
    | some g =>
      constructor
      · intro h
        simp only [searchBucket, hm] at h
        exact Option.noConfusion h
      · intro h
        have h0 := h 0
        rw [List.drop_zero, hm] at h0
        exact Option.noConfusion h0
    | none =>
      constructor
      · intro h n
        cases n with
        | zero => simpa using hm
        | succ k =>
          simp only [searchBucket, hm] at h
          simpa using ih.mp h k
      · intro h
        simp only [searchBucket, hm]
        exact ih.mpr fun n => by simpa using h (n + 1)

theorem matchBucketAt_none_of_no_spec (cs : List Char) (h : ∀ Y, ¬ SpecMatchAt cs Y) :
    matchBucketAt cs = none := by
  cases h2 : matchBucketAt cs with
  | none => rfl
  | some Y => exact absurd (spec_of_matchBucketAt_some cs Y h2) (h Y)

/-- C2 -/
theorem claim_C2 (v : String) (t : TfWrapper) :
    (∀ X, SpecFirstMatch v.data X → teardown_bucket_name v t = String.mk X) ∧
    ((∀ n Y, ¬ SpecMatchAt (v.data.drop n) Y) →
      teardown_bucket_name v t = t.account_id ++ "-" ++ t.safe_app_name ++ "-tfstate") := by
  constructor
  · rintro X ⟨n, hn, hmin⟩
    have hs : searchBucket v.data = some X :=
      (searchBucket_some_iff v.data X).mpr
        ⟨n, matchBucketAt_some_of_spec _ X hn,
         fun m hm => matchBucketAt_none_of_no_spec _ (hmin m hm)⟩
    simp only [teardown_bucket_name, hs]
  · intro h
    have hs : searchBucket v.data = none :=
      (searchBucket_none_iff v.data).mpr fun n => matchBucketAt_none_of_no_spec _ (h n)
    simp only [teardown_bucket_name, hs]

theorem claim_C2_witness :
    SpecFirstMatch ("bucket = \"mybkt\"".data) ("mybkt".data) ∧
    teardown_bucket_name "bucket = \"mybkt\"" c2wrapper = String.mk ("mybkt".data) ∧
    (∀ n Y, ¬ SpecMatchAt (("" : String).data.drop n) Y) ∧
    teardown_bucket_name "" c2wrapper =
      c2wrapper.account_id ++ "-" ++ c2wrapper.safe_app_name ++ "-tfstate" := by
  have hfirst : SpecFirstMatch ("bucket = \"mybkt\"".data) ("mybkt".data) :=
    ⟨0, ⟨[' '], [' '], [], by decide, by decide, by decide, by decide, by decide⟩,
     fun m hm Y => absurd hm (by omega)⟩
  have hnone : ∀ n Y, ¬ SpecMatchAt (("" : String).data.drop n) Y := by
    rintro n Y ⟨ws1, ws2, suf, heq, -, -, -, -⟩
    simp at heq
  exact ⟨hfirst, (claim_C2 "bucket = \"mybkt\"" c2wrapper).1 _ hfirst, hnone,
    (claim_C2 "" c2wrapper).2 hnone⟩

theorem initApplyBeforePut_of_noPut (d : String) (tr : List Event)
    (h : ∀ e ∈ tr, isSsmPut e = false) : InitApplyBeforePut d tr := by
  intro n ⟨e, he, hput⟩
  have := h e (List.take_subset n tr he)
  rw [this] at hput
  exact Bool.noConfusion hput

theorem initApplyBeforePut_of_split (d : String) (tr pre rest : List Event)
    (heq : tr = pre ++ rest) (hnp : ∀ e ∈ pre, isSsmPut e = false)
    (hinit : ∃ e ∈ pre, isTfInitIn d e = true) (happly : ∃ e ∈ pre, isTfApplyIn d e = true) :
    InitApplyBeforePut d tr := by
  subst heq
  intro n ⟨e, he, hput⟩
  rw [List.take_append_eq_append_take] at he
  rcases List.mem_append.mp he with h1 | h2
  · have := hnp e (List.take_subset n pre h1)
    rw [this] at hput
    exact Bool.noConfusion hput
  · have hpos : 0 < n - pre.length := by
      rcases Nat.eq_zero_or_pos (n - pre.length) with hz | hp
      · rw [hz] at h2
        simp at h2
      · exact hp
    have hlen : pre.length ≤ n := by omega
    have hpre : pre.take n = pre := List.take_of_length_le hlen
    constructor
    · obtain ⟨e1, he1, hi⟩ := hinit
      exact ⟨e1, by rw [List.take_append_eq_append_take, hpre]; exact List.mem_append_left _ he1, hi⟩
    · obtain ⟨e2, he2, ha⟩ := happly
      exact ⟨e2, by rw [List.take_append_eq_append_take, hpre]; exact List.mem_append_left _ he2, ha⟩

theorem run_bootstrap_ordering (isDir : String → Bool) (initOk applyOk : Bool)
    (outB : Option String) (putOk : Bool) (t : TfWrapper) (fs : FS) :
    ∃ d, (d = pathJoin t.target_dir "bootstrap" ∨ d = "bootstrap") ∧
      InitApplyBeforePut d
        (trOf (runM (run_bootstrap_and_create_ssm isDir initOk applyOk outB putOk t) fs)) := by
  by_cases h1 : isDir (pathJoin t.target_dir "bootstrap") = true
  · refine ⟨pathJoin t.target_dir "bootstrap", Or.inl rfl, ?_⟩
    by_cases he : (fs (pathJoin (pathJoin t.target_dir "bootstrap") "backend.tf")).isSome = true
    · cases initOk with
      | false =>
        apply initApplyBeforePut_of_noPut
        simp [run_bootstrap_and_create_ssm, bootstrapCandidates, List.find?, h1, he, runM, trOf,
          M.bind_def, M.pure_def, bindM, pureM, emit, sysExit, erase_backend_tf, getFS, removeFS,
          run_and_log, write_backend_hcl_to_file, writeFS, put_ssm_backend, isSsmPut]
      | true =>
        cases applyOk with
        | false =>
          apply initApplyBeforePut_of_noPut
          simp [run_bootstrap_and_create_ssm, bootstrapCandidates, List.find?, h1, he, runM, trOf,
            M.bind_def, M.pure_def, bindM, pureM, emit, sysExit, erase_backend_tf, getFS, removeFS,
            run_and_log, write_backend_hcl_to_file, writeFS, put_ssm_backend, isSsmPut]
        | true =>
          apply initApplyBeforePut_of_split _ _
            ((trOf (runM (run_bootstrap_and_create_ssm isDir true true outB putOk t) fs)).take 10)
            ((trOf (runM (run_bootstrap_and_create_ssm isDir true true outB putOk t) fs)).drop 10)
            (List.take_append_drop 10 _).symm
          · simp [run_bootstrap_and_create_ssm, bootstrapCandidates, List.find?, h1, he, runM,
              trOf, M.bind_def, M.pure_def, bindM, pureM, emit, sysExit, erase_backend_tf, getFS,
              removeFS, run_and_log, write_backend_hcl_to_file, writeFS, put_ssm_backend, isSsmPut]
          · refine ⟨Event.runCmd ["terraform", "init", "-input=false", "-reconfigure"]
              (some (pathJoin t.target_dir "bootstrap")), ?_, by simp [isTfInitIn]⟩
            simp [run_bootstrap_and_create_ssm, bootstrapCandidates, List.find?, h1, he, runM,
              trOf, M.bind_def, M.pure_def, bindM, pureM, emit, sysExit, erase_backend_tf, getFS,
              removeFS, run_and_log, write_backend_hcl_to_file, writeFS, put_ssm_backend]
          · refine ⟨Event.runCmd ["terraform", "apply", "-auto-approve", "-input=false", "-var",
              "environment=" ++ t.env, "-var", "region=" ++ t.region]
              (some (pathJoin t.target_dir "bootstrap")), ?_, by simp [isTfApplyIn]⟩
            simp [run_bootstrap_and_create_ssm, bootstrapCandidates, List.find?, h1, he, runM,
              trOf, M.bind_def, M.pure_def, bindM, pureM, emit, sysExit, erase_backend_tf, getFS,
              removeFS, run_and_log, write_backend_hcl_to_file, writeFS, put_ssm_backend]
    · cases initOk with
      | false =>
        apply initApplyBeforePut_of_noPut
        simp [run_bootstrap_and_create_ssm, bootstrapCandidates, List.find?, h1, he, runM, trOf,
          M.bind_def, M.pure_def, bindM, pureM, emit, sysExit, erase_backend_tf, getFS, removeFS,
          run_and_log, write_backend_hcl_to_file, writeFS, put_ssm_backend, isSsmPut]
      | true =>
        cases applyOk with
        | false =>
          apply initApplyBeforePut_of_noPut
          simp [run_bootstrap_and_create_ssm, bootstrapCandidates, List.find?, h1, he, runM, trOf,
            M.bind_def, M.pure_def, bindM, pureM, emit, sysExit, erase_backend_tf, getFS, removeFS,
            run_and_log, write_backend_hcl_to_file, writeFS, put_ssm_backend, isSsmPut]
        | true =>
          apply initApplyBeforePut_of_split _ _
            ((trOf (runM (run_bootstrap_and_create_ssm isDir true true outB putOk t) fs)).take 9)
            ((trOf (runM (run_bootstrap_and_create_ssm isDir true true outB putOk t) fs)).drop 9)
            (List.take_append_drop 9 _).symm
          · simp [run_bootstrap_and_create_ssm, bootstrapCandidates, List.find?, h1, he, runM,
              trOf, M.bind_def, M.pure_def, bindM, pureM, emit, sysExit, erase_backend_tf, getFS,
              removeFS, run_and_log, write_backend_hcl_to_file, writeFS, put_ssm_backend, isSsmPut]
          · refine ⟨Event.runCmd ["terraform", "init", "-input=false", "-reconfigure"]
              (some (pathJoin t.target_dir "bootstrap")), ?_, by simp [isTfInitIn]⟩
            simp [run_bootstrap_and_create_ssm, bootstrapCandidates, List.find?, h1, he, runM,
              trOf, M.bind_def, M.pure_def, bindM, pureM, emit, sysExit, erase_backend_tf, getFS,
              removeFS, run_and_log, write_backend_hcl_to_file, writeFS, put_ssm_backend]
          · refine ⟨Event.runCmd ["terraform", "apply", "-auto-approve", "-input=false", "-var",
              "environment=" ++ t.env, "-var", "region=" ++ t.region]
              (some (pathJoin t.target_dir "bootstrap")), ?_, by simp [isTfApplyIn]⟩
            simp [run_bootstrap_and_create_ssm, bootstrapCandidates, List.find?, h1, he, runM,
              trOf, M.bind_def, M.pure_def, bindM, pureM, emit, sysExit, erase_backend_tf, getFS,
              removeFS, run_and_log, write_backend_hcl_to_file, writeFS, put_ssm_backend]
  · have h1f : isDir (pathJoin t.target_dir "bootstrap") = false := by simpa using h1
    by_cases h2 : isDir "bootstrap" = true
    · refine ⟨"bootstrap", Or.inr rfl, ?_⟩
      by_cases he : (fs (pathJoin "bootstrap" "backend.tf")).isSome = true
      · cases initOk with
        | false =>
          apply initApplyBeforePut_of_noPut
          simp [run_bootstrap_and_create_ssm, bootstrapCandidates, List.find?, h1f, h2, he, runM,
            trOf, M.bind_def, M.pure_def, bindM, pureM, emit, sysExit, erase_backend_tf, getFS,
            removeFS, run_and_log, write_backend_hcl_to_file, writeFS, put_ssm_backend, isSsmPut]
        | true =>
          cases applyOk with
          | false =>
            apply initApplyBeforePut_of_noPut
            simp [run_bootstrap_and_create_ssm, bootstrapCandidates, List.find?, h1f, h2, he,
              runM, trOf, M.bind_def, M.pure_def, bindM, pureM, emit, sysExit, erase_backend_tf,
              getFS, removeFS, run_and_log, write_backend_hcl_to_file, writeFS, put_ssm_backend,
              isSsmPut]
          | true =>
            apply initApplyBeforePut_of_split _ _
              ((trOf (runM (run_bootstrap_and_create_ssm isDir true true outB putOk t) fs)).take 10)
              ((trOf (runM (run_bootstrap_and_create_ssm isDir true true outB putOk t) fs)).drop 10)
              (List.take_append_drop 10 _).symm
            · simp [run_bootstrap_and_create_ssm, bootstrapCandidates, List.find?, h1f, h2, he,
                runM, trOf, M.bind_def, M.pure_def, bindM, pureM, emit, sysExit, erase_backend_tf,
                getFS, removeFS, run_and_log, write_backend_hcl_to_file, writeFS, put_ssm_backend,
                isSsmPut]
            · refine ⟨Event.runCmd ["terraform", "init", "-input=false", "-reconfigure"]
                (some "bootstrap"), ?_, by simp [isTfInitIn]⟩
              simp [run_bootstrap_and_create_ssm, bootstrapCandidates, List.find?, h1f, h2, he,
                runM, trOf, M.bind_def, M.pure_def, bindM, pureM, emit, sysExit, erase_backend_tf,
                getFS, removeFS, run_and_log, write_backend_hcl_to_file, writeFS, put_ssm_backend]
            · refine ⟨Event.runCmd ["terraform", "apply", "-auto-approve", "-input=false", "-var",
                "environment=" ++ t.env, "-var", "region=" ++ t.region] (some "bootstrap"), ?_,
                by simp [isTfApplyIn]⟩
              simp [run_bootstrap_and_create_ssm, bootstrapCandidates, List.find?, h1f, h2, he,
                runM, trOf, M.bind_def, M.pure_def, bindM, pureM, emit, sysExit, erase_backend_tf,
                getFS, removeFS, run_and_log, write_backend_hcl_to_file, writeFS, put_ssm_backend]
      · cases initOk with
        | false =>
          apply initApplyBeforePut_of_noPut
          simp [run_bootstrap_and_create_ssm, bootstrapCandidates, List.find?, h1f, h2, he, runM,
            trOf, M.bind_def, M.pure_def, bindM, pureM, emit, sysExit, erase_backend_tf, getFS,
            removeFS, run_and_log, write_backend_hcl_to_file, writeFS, put_ssm_backend, isSsmPut]
        | true =>
          cases applyOk with
          | false =>
            apply initApplyBeforePut_of_noPut
            simp [run_bootstrap_and_create_ssm, bootstrapCandidates, List.find?, h1f, h2, he,
              runM, trOf, M.bind_def, M.pure_def, bindM, pureM, emit, sysExit, erase_backend_tf,
              getFS, removeFS, run_and_log, write_backend_hcl_to_file, writeFS, put_ssm_backend,
              isSsmPut]
          | true =>
            apply initApplyBeforePut_of_split _ _
              ((trOf (runM (run_bootstrap_and_create_ssm isDir true true outB putOk t) fs)).take 9)
              ((trOf (runM (run_bootstrap_and_create_ssm isDir true true outB putOk t) fs)).drop 9)
              (List.take_append_drop 9 _).symm
            · simp [run_bootstrap_and_create_ssm, bootstrapCandidates, List.find?, h1f, h2, he,
                runM, trOf, M.bind_def, M.pure_def, bindM, pureM, emit, sysExit, erase_backend_tf,
                getFS, removeFS, run_and_log, write_backend_hcl_to_file, writeFS, put_ssm_backend,
                isSsmPut]
            · refine ⟨Event.runCmd ["terraform", "init", "-input=false", "-reconfigure"]
                (some "bootstrap"), ?_, by simp [isTfInitIn]⟩
              simp [run_bootstrap_and_create_ssm, bootstrapCandidates, List.find?, h1f, h2, he,
                runM, trOf, M.bind_def, M.pure_def, bindM, pureM, emit, sysExit, erase_backend_tf,
                getFS, removeFS, run_and_log, write_backend_hcl_to_file, writeFS, put_ssm_backend]
            · refine ⟨Event.runCmd ["terraform", "apply", "-auto-approve", "-input=false", "-var",
                "environment=" ++ t.env, "-var", "region=" ++ t.region] (some "bootstrap"), ?_,
                by simp [isTfApplyIn]⟩
              simp [run_bootstrap_and_create_ssm, bootstrapCandidates, List.find?, h1f, h2, he,
                runM, trOf, M.bind_def, M.pure_def, bindM, pureM, emit, sysExit, erase_backend_tf,
                getFS, removeFS, run_and_log, write_backend_hcl_to_file, writeFS, put_ssm_backend]
    · have h2f : isDir "bootstrap" = false := by simpa using h2
      refine ⟨"bootstrap", Or.inr rfl, ?_⟩
      apply initApplyBeforePut_of_noPut
      simp [run_bootstrap_and_create_ssm, bootstrapCandidates, List.find?, h1f, h2f, runM, trOf,
        M.bind_def, M.pure_def, bindM, pureM, emit, sysExit, isSsmPut]

theorem initApplyBeforePut_append_left (d : String) (pre tr : List Event)
    (hnp : ∀ e ∈ pre, isSsmPut e = false) (h : InitApplyBeforePut d tr) :
    InitApplyBeforePut d (pre ++ tr) := by
  intro n ⟨e, he, hput⟩
  rw [List.take_append_eq_append_take] at he
  rcases List.mem_append.mp he with h1 | h2
  · have := hnp e (List.take_subset n pre h1)
    rw [this] at hput
    exact Bool.noConfusion hput
  · have hpos : 0 < n - pre.length := by
      rcases Nat.eq_zero_or_pos (n - pre.length) with hz | hp
      · rw [hz] at h2
        simp at h2
      · exact hp
    have hlen : pre.length ≤ n := by omega
    have hpre : pre.take n = pre := List.take_of_length_le hlen
    obtain ⟨⟨e1, he1, hi⟩, ⟨e2, he2, ha⟩⟩ := h (n - pre.length) ⟨e, h2, hput⟩
    constructor
    · refine ⟨e1, ?_, hi⟩
      rw [List.take_append_eq_append_take, hpre]
      exact List.mem_append_right _ he1
    · refine ⟨e2, ?_, ha⟩
      rw [List.take_append_eq_append_take, hpre]
      exact List.mem_append_right _ he2

/-- C1 -/
theorem claim_C1 (r : SsmGetResult) (isDir : String → Bool) (initOk applyOk : Bool)
    (outB : Option String) (putOk : Bool) (t : TfWrapper) (fs : FS)
    (hempty : ssmGetValue r = "") :
    ∃ d, (d = pathJoin t.target_dir "bootstrap" ∨ d = "bootstrap") ∧
      InitApplyBeforePut d
        (trOf (runM (ensure_backend_via_ssm_or_bootstrap r isDir initOk applyOk outB putOk t) fs)) := by
  obtain ⟨d, hd, hord⟩ := run_bootstrap_ordering isDir initOk applyOk outB putOk t fs
  refine ⟨d, hd, ?_⟩
  cases r with
  | found v =>
    have hv : v = "" := hempty
    subst hv
    have htr : trOf (runM (ensure_backend_via_ssm_or_bootstrap (SsmGetResult.found "") isDir
        initOk applyOk outB putOk t) fs) =
        [Event.logInfo "ensure_backend_via_ssm_or_bootstrap: BEGIN",
         Event.ssmGet t.ssm_param_name,
         Event.logInfo ("Backend SSM parameter " ++ t.ssm_param_name ++
           " not found or empty. Running bootstrap to create backend and SSM entry.")] ++
        trOf (runM (run_bootstrap_and_create_ssm isDir initOk applyOk outB putOk t) fs) := by
      simp [ensure_backend_via_ssm_or_bootstrap, get_ssm_backend, runM, trOf, M.bind_def,
        M.pure_def, bindM, pureM, emit]
    rw [htr]
    exact initApplyBeforePut_append_left d _ _ (by simp [isSsmPut]) hord
  | notFound =>
    have htr : trOf (runM (ensure_backend_via_ssm_or_bootstrap SsmGetResult.notFound isDir
        initOk applyOk outB putOk t) fs) =
        [Event.logInfo "ensure_backend_via_ssm_or_bootstrap: BEGIN",
         Event.ssmGet t.ssm_param_name,
         Event.logInfo ("Backend SSM parameter " ++ t.ssm_param_name ++
           " not found or empty. Running bootstrap to create backend and SSM entry.")] ++
        trOf (runM (run_bootstrap_and_create_ssm isDir initOk applyOk outB putOk t) fs) := by
      simp [ensure_backend_via_ssm_or_bootstrap, get_ssm_backend, runM, trOf, M.bind_def,
        M.pure_def, bindM, pureM, emit]
    rw [htr]
    exact initApplyBeforePut_append_left d _ _ (by simp [isSsmPut]) hord
  | otherError msg =>
    have htr : trOf (runM (ensure_backend_via_ssm_or_bootstrap (SsmGetResult.otherError msg) isDir
        initOk applyOk outB putOk t) fs) =
        [Event.logInfo "ensure_backend_via_ssm_or_bootstrap: BEGIN",
         Event.ssmGet t.ssm_param_name,
         Event.logError ("SSM get_parameter failed: " ++ msg),
         Event.logInfo ("Backend SSM parameter " ++ t.ssm_param_name ++
           " not found or empty. Running bootstrap to create backend and SSM entry.")] ++
        trOf (runM (run_bootstrap_and_create_ssm isDir initOk applyOk outB putOk t) fs) := by
      simp [ensure_backend_via_ssm_or_bootstrap, get_ssm_backend, runM, trOf, M.bind_def,
        M.pure_def, bindM, pureM, emit]
    rw [htr]
    exact initApplyBeforePut_append_left d _ _ (by simp [isSsmPut]) hord

theorem claim_C1_witness :
    ssmGetValue SsmGetResult.notFound = "" ∧
    ∃ d, (d = pathJoin (TfWrapper.make "dev" "us-east-1" ".").target_dir "bootstrap" ∨
        d = "bootstrap") ∧
      InitApplyBeforePut d
        (trOf (runM (ensure_backend_via_ssm_or_bootstrap SsmGetResult.notFound (fun _ => true)
          true true none true (TfWrapper.make "dev" "us-east-1" ".")) emptyFS)) :=
  ⟨rfl, claim_C1 SsmGetResult.notFound (fun _ => true) true true none true
    (TfWrapper.make "dev" "us-east-1" ".") emptyFS rfl⟩

theorem trace_bind_all {α β : Type} (P : Event → Prop) (m : M α) (f : α → M β) (fs : FS)
    (hm : ∀ e ∈ trOf (m fs), P e) (hf : ∀ a fs2, ∀ e ∈ trOf (f a fs2), P e) :
    ∀ e ∈ trOf (bindM m f fs), P e := by
  intro e he
  unfold bindM at he
  rcases hmfs : m fs with ⟨fs1, tr1, r⟩
  rw [hmfs] at he hm
  simp only [trOf] at hm
  cases r with
  | error c =>
    simp only [trOf] at he
    exact hm e he
  | ok a =>
    dsimp only at he
    have hf2 := hf a fs1
    rcases hffs : f a fs1 with ⟨fs2, tr2, r2⟩
    rw [hffs] at he hf2
    dsimp only at he
    simp only [trOf] at he hf2
    rcases List.mem_append.mp he with h | h
    · exact hm e h
    · exact hf2 e h

theorem put_store_write_writes (putOk : Bool) (bucket_name : String) (t : TfWrapper) (fs : FS) :
    ∀ e ∈ trOf (runM (do
      put_ssm_backend putOk (build_backend_content bucket_name t.region t.account_id t) t
      emit (Event.logInfo ("Stored backend configuration into SSM parameter " ++ t.ssm_param_name))
      write_backend_hcl_to_file (build_backend_content bucket_name t.region t.account_id t) t) fs),
      WriteIsBackend t e := by
  intro e he
  cases putOk <;>
    simp [put_ssm_backend, write_backend_hcl_to_file, runM, trOf, M.bind_def, M.pure_def, bindM,
      pureM, emit, sysExit, writeFS] at he
  · rcases he with rfl | rfl
    · simp [WriteIsBackend]
    · simp [WriteIsBackend]
  · rcases he with rfl | rfl | rfl | rfl | rfl
    · simp [WriteIsBackend]
    · simp [WriteIsBackend]
    · simp [WriteIsBackend]
    · intro p c hpc
      cases hpc
      exact ⟨bucket_name, rfl⟩
    · simp [WriteIsBackend]

theorem run_bootstrap_writes (isDir : String → Bool) (initOk applyOk : Bool)
    (outB : Option String) (putOk : Bool) (t : TfWrapper) (fs : FS) :
    ∀ e ∈ trOf (runM (run_bootstrap_and_create_ssm isDir initOk applyOk outB putOk t) fs),
      WriteIsBackend t e := by
  unfold run_bootstrap_and_create_ssm runM
  rw [M.bind_def]
  apply trace_bind_all
  · simp [emit, trOf, WriteIsBackend]
  · intro a fs2
    cases hfind : (bootstrapCandidates t).find? isDir with
    | none =>
      rw [M.bind_def]
      apply trace_bind_all
      · simp [emit, trOf, WriteIsBackend]
      · intro a2 fs3
        simp [sysExit, trOf]
    | some found =>
      rw [M.bind_def]
      apply trace_bind_all
      · simp [emit, trOf, WriteIsBackend]
      · intro a2 fs3
        rw [M.bind_def]
        apply trace_bind_all
        · intro e he
          by_cases hex : (fs3 (pathJoin found "backend.tf")).isSome = true <;>
            simp [erase_backend_tf, M.bind_def, M.pure_def, bindM, pureM, emit, getFS, removeFS,
              hex, trOf] at he <;>
            rcases he with rfl | rfl | rfl <;> simp [WriteIsBackend]
        · intro a3 fs4
          rw [M.bind_def]
          apply trace_bind_all
          · intro e he
            cases initOk <;>
              simp [run_and_log, M.bind_def, M.pure_def, bindM, pureM, emit, sysExit, trOf] at he <;>
              rcases he with rfl | rfl | rfl <;> simp [WriteIsBackend]
          · intro a4 fs5
            rw [M.bind_def]
            apply trace_bind_all
            · intro e he
              cases applyOk <;>
                simp [run_and_log, M.bind_def, M.pure_def, bindM, pureM, emit, sysExit, trOf] at he <;>
                rcases he with rfl | rfl | rfl <;> simp [WriteIsBackend]
            · intro a5 fs6
              rw [M.bind_def]
              apply trace_bind_all
              · simp [emit, trOf, WriteIsBackend]
              · intro a6 fs7
                by_cases hov : t.bucket_override ≠ ""
                · simp only [if_pos hov, M.bind_def, M.pure_def]
                  apply trace_bind_all
                  · simp [pureM, trOf]
                  · exact fun b fs8 => put_store_write_writes putOk b t fs8
                · simp only [if_neg hov, M.bind_def, M.pure_def]
                  apply trace_bind_all
                  · simp [emit, trOf, WriteIsBackend]
                  · intro a7 fs8
                    apply trace_bind_all
                    · simp [pureM, trOf]
                    · exact fun b fs9 => put_store_write_writes putOk b t fs9

theorem build_backend_content_ne_none (bucket region account : String) (t : TfWrapper) :
    build_backend_content bucket region account t ≠ "None" := by
  intro h
  have h2 := congrArg String.data h
  simp [build_backend_content, String.data_append] at h2

/-- C9 -/
theorem claim_C9 (isDir : String → Bool) (initOk applyOk : Bool) (outB : Option String)
    (putOk : Bool) (t : TfWrapper) (fs : FS) :
    (trOf (runM (ensure_backend_via_ssm_or_bootstrap (SsmGetResult.found "None") isDir initOk
        applyOk outB putOk t) fs) =
      [Event.logInfo "ensure_backend_via_ssm_or_bootstrap: BEGIN",
       Event.ssmGet t.ssm_param_name,
       Event.logInfo ("Backend SSM parameter " ++ t.ssm_param_name ++
         " not found or empty. Running bootstrap to create backend and SSM entry.")] ++
      trOf (runM (run_bootstrap_and_create_ssm isDir initOk applyOk outB putOk t) fs) ∧
     resOf (runM (ensure_backend_via_ssm_or_bootstrap (SsmGetResult.found "None") isDir initOk
        applyOk outB putOk t) fs) =
      resOf (runM (run_bootstrap_and_create_ssm isDir initOk applyOk outB putOk t) fs) ∧
     fsOf (runM (ensure_backend_via_ssm_or_bootstrap (SsmGetResult.found "None") isDir initOk
        applyOk outB putOk t) fs) =
      fsOf (runM (run_bootstrap_and_create_ssm isDir initOk applyOk outB putOk t) fs)) ∧
    ∀ p, Event.writeFile p "None" ∉
      trOf (runM (ensure_backend_via_ssm_or_bootstrap (SsmGetResult.found "None") isDir initOk
        applyOk outB putOk t) fs) := by
  have htr : trOf (runM (ensure_backend_via_ssm_or_bootstrap (SsmGetResult.found "None") isDir
      initOk applyOk outB putOk t) fs) =
      [Event.logInfo "ensure_backend_via_ssm_or_bootstrap: BEGIN",
       Event.ssmGet t.ssm_param_name,
       Event.logInfo ("Backend SSM parameter " ++ t.ssm_param_name ++
         " not found or empty. Running bootstrap to create backend and SSM entry.")] ++
      trOf (runM (run_bootstrap_and_create_ssm isDir initOk applyOk outB putOk t) fs) := by
    simp [ensure_backend_via_ssm_or_bootstrap, get_ssm_backend, runM, trOf, M.bind_def,
      M.pure_def, bindM, pureM, emit]
  refine ⟨⟨htr, ?_, ?_⟩, ?_⟩
  · simp [ensure_backend_via_ssm_or_bootstrap, get_ssm_backend, runM, resOf, M.bind_def,
      M.pure_def, bindM, pureM, emit]
  · simp [ensure_backend_via_ssm_or_bootstrap, get_ssm_backend, runM, fsOf, M.bind_def,
      M.pure_def, bindM, pureM, emit]
  · intro p hmem
    rw [htr] at hmem
    rcases List.mem_append.mp hmem with h | h
    · simp at h
    · have := run_bootstrap_writes isDir initOk applyOk outB putOk t fs _ h p "None" rfl
      obtain ⟨bn, hbn⟩ := this
      exact build_backend_content_ne_none bn t.region t.account_id t hbn.symm

theorem claim_C9_witness :
    Event.writeFile "q" "None" ∉
      trOf (runM (ensure_backend_via_ssm_or_bootstrap (SsmGetResult.found "None") (fun _ => true)
        true true none true (TfWrapper.make "dev" "us-east-1" ".")) emptyFS) :=
  (claim_C9 (fun _ => true) true true none true (TfWrapper.make "dev" "us-east-1" ".") emptyFS).2 "q"

/-- C10 -/
theorem claim_C10 (isDir : String → Bool) (putOk : Bool) (outB : Option String)
    (r : SsmGetResult) (t : TfWrapper) (fs : FS)
    (hdir : isDir (pathJoin t.target_dir "bootstrap") = true)
    (hov : t.bucket_override = "")
    (hout : outB = none ∨ outB = some "")
    (hnomatch : ∀ n Y, ¬ SpecMatchAt ((ssmGetValue r).data.drop n) Y) :
    Event.ssmPut t.ssm_param_name
        (build_backend_content (t.account_id ++ "-" ++ t.safe_app_name ++ "-tfstate")
          t.region t.account_id t) ∈
      trOf (runM (run_bootstrap_and_create_ssm isDir true true outB putOk t) fs) ∧
    teardown_bucket_name (ssmGetValue r) t =
      t.account_id ++ "-" ++ t.safe_app_name ++ "-tfstate" := by
  constructor
  · by_cases he : (fs (pathJoin (pathJoin t.target_dir "bootstrap") "backend.tf")).isSome = true <;>
      rcases hout with rfl | rfl <;>
      cases putOk <;>
        simp [run_bootstrap_and_create_ssm, bootstrapCandidates, List.find?, hdir, he, hov, runM,
          trOf, M.bind_def, M.pure_def, bindM, pureM, emit, sysExit, erase_backend_tf, getFS,
          removeFS, run_and_log, write_backend_hcl_to_file, writeFS, put_ssm_backend]
  · have hsb : searchBucket (ssmGetValue r).data = none :=
      (searchBucket_none_iff (ssmGetValue r).data).mpr
        fun n => matchBucketAt_none_of_no_spec _ (hnomatch n)
    simp only [teardown_bucket_name, hsb]

theorem claim_C10_witness :
    (fun _ : String => true) (pathJoin (TfWrapper.make "dev" "us-east-1" ".").target_dir
      "bootstrap") = true ∧
    (TfWrapper.make "dev" "us-east-1" ".").bucket_override = "" ∧
    (∀ n Y, ¬ SpecMatchAt ((ssmGetValue SsmGetResult.notFound).data.drop n) Y) ∧
    (Event.ssmPut (TfWrapper.make "dev" "us-east-1" ".").ssm_param_name
        (build_backend_content ((TfWrapper.make "dev" "us-east-1" ".").account_id ++ "-" ++
          (TfWrapper.make "dev" "us-east-1" ".").safe_app_name ++ "-tfstate")
          (TfWrapper.make "dev" "us-east-1" ".").region
          (TfWrapper.make "dev" "us-east-1" ".").account_id
          (TfWrapper.make "dev" "us-east-1" ".")) ∈
      trOf (runM (run_bootstrap_and_create_ssm (fun _ => true) true true none true
        (TfWrapper.make "dev" "us-east-1" ".")) emptyFS) ∧
     teardown_bucket_name (ssmGetValue SsmGetResult.notFound)
        (TfWrapper.make "dev" "us-east-1" ".") =
      (TfWrapper.make "dev" "us-east-1" ".").account_id ++ "-" ++
        (TfWrapper.make "dev" "us-east-1" ".").safe_app_name ++ "-tfstate") := by
  have hnomatch : ∀ n Y, ¬ SpecMatchAt ((ssmGetValue SsmGetResult.notFound).data.drop n) Y := by
    rintro n Y ⟨ws1, ws2, suf, heq, -, -, -, -⟩
    simp [ssmGetValue] at heq
  exact ⟨rfl, rfl, hnomatch,
    claim_C10 (fun _ => true) true none SsmGetResult.notFound
      (TfWrapper.make "dev" "us-east-1" ".") emptyFS rfl rfl (Or.inl rfl) hnomatch⟩

/-- C4 -/
theorem claim_C4 (a : Args) (w : World) (fs : FS)
    (hcmd : a.command = "destroy" ∨ a.command = "destroy-all" ∨ a.command = "clean")
    (hforce : a.force = false)
    (hdecl : confirmAnswer w.promptResp = false)
    (hok : a.command = "clean" ∨ SynthOk a w) :
    (∀ e ∈ trOf (runM (mainRun a w) fs), isMutating e = false) ∧
    (∀ p, fsOf (runM (mainRun a w) fs) p = fs p) ∧
    exitStatus (resOf (runM (mainRun a w) fs)) = 0 := by
  rcases hcmd with hc | hc | hc
  · rcases hok with hclean | ⟨happ, acct, hsts, hacct⟩
    · rw [hc] at hclean
      exact absurd hclean (by decide)
    · by_cases hao : a.app_name = ""
      · rw [hao] at happ
        simp only [ne_eq, not_true_eq_false, if_neg, ite_false, if_false] at happ
        refine ⟨?_, ?_, ?_⟩ <;>
          simp [mainRun, dispatch, makeWrapper, TfWrapper.make, hc, hforce, hdecl, hao, happ,
            hsts, hacct, synthesize_app_name_and_account, confirm_prompt, runM, trOf, fsOf, resOf,
            exitStatus, M.bind_def, M.pure_def, bindM, pureM, emit, sysExit, isMutating]
      · refine ⟨?_, ?_, ?_⟩ <;>
          simp [mainRun, dispatch, makeWrapper, TfWrapper.make, hc, hforce, hdecl, hao, hsts,
            hacct, synthesize_app_name_and_account, confirm_prompt, runM, trOf, fsOf, resOf,
            exitStatus, M.bind_def, M.pure_def, bindM, pureM, emit, sysExit, isMutating]
  · rcases hok with hclean | ⟨happ, acct, hsts, hacct⟩
    · rw [hc] at hclean
      exact absurd hclean (by decide)
    · by_cases hao : a.app_name = ""
      · rw [hao] at happ
        simp only [ne_eq, not_true_eq_false, if_neg, ite_false, if_false] at happ
        refine ⟨?_, ?_, ?_⟩ <;>
          simp [mainRun, dispatch, makeWrapper, TfWrapper.make, hc, hforce, hdecl, hao, happ,
            hsts, hacct, synthesize_app_name_and_account, confirm_prompt, runM, trOf, fsOf, resOf,
            exitStatus, M.bind_def, M.pure_def, bindM, pureM, emit, sysExit, isMutating]
      · refine ⟨?_, ?_, ?_⟩ <;>
          simp [mainRun, dispatch, makeWrapper, TfWrapper.make, hc, hforce, hdecl, hao, hsts,
            hacct, synthesize_app_name_and_account, confirm_prompt, runM, trOf, fsOf, resOf,
            exitStatus, M.bind_def, M.pure_def, bindM, pureM, emit, sysExit, isMutating]
  · refine ⟨?_, ?_, ?_⟩ <;>
      simp [mainRun, dispatch, makeWrapper, TfWrapper.make, hc, hforce, hdecl, runM, trOf, fsOf,
        resOf, exitStatus, M.bind_def, M.pure_def, bindM, pureM, emit, sysExit, isMutating,
        confirm_prompt]

theorem claim_C4_witness :
    (c4args.command = "destroy" ∨ c4args.command = "destroy-all" ∨ c4args.command = "clean") ∧
    c4args.force = false ∧
    confirmAnswer c4world.promptResp = false ∧
    (∀ e ∈ trOf (runM (mainRun c4args c4world) emptyFS), isMutating e = false) ∧
    exitStatus (resOf (runM (mainRun c4args c4world) emptyFS)) = 0 :=
  ⟨Or.inr (Or.inr rfl), rfl, rfl,
   (claim_C4 c4args c4world emptyFS (Or.inr (Or.inr rfl)) rfl rfl (Or.inl rfl)).1,
   (claim_C4 c4args c4world emptyFS (Or.inr (Or.inr rfl)) rfl rfl (Or.inl rfl)).2.2⟩
